import Mathlib

/-!
Shallow embedding of `twisted/issues/repo.py`: the `IssueRepository` registry
(id allocation, issue/task/queue storage and lookup) and the `IssuePerson`
notifier-forwarding protocol.

Python dicts are embedded as association lists with mathematical-map lookup
and overwrite-on-insert semantics; the mutable repository object is embedded
as explicit state passing; a raised `KeyError` / a failed Deferred is embedded
as the `Except`-error `IssueError.notFound`; a raised `CouldNotTranscribe`
as `IssueError.couldNotTranscribe`.

The entity classes `Issue`, `Task`, `IssueQueue` and the state classes
`InQueue`, `PendingFixerAnalysis` live in `twisted/issues/issue.py` and
`twisted/issues/task.py`, which are not part of the sources; they are
modelled from the spec (see the doc comments below).
-/

namespace TwistedIssues

/-- The error taxonomy of the core (spec section 7): a missing queue name or a
missing issue/task id is `notFound` (a `KeyError` / failed Deferred in the
Python source); `couldNotNotify` and `couldNotTranscribe` embed the
`CouldNotNotify` and `CouldNotTranscribe` exception classes of `repo.py`. -/
inductive IssueError where
  | notFound
  | couldNotNotify
  | couldNotTranscribe
deriving DecidableEq, Repr

/-- Modelled from the spec: the `IssueQueue` class of `twisted/issues/issue.py`
is not under the sources. Spec section 3: a queue is "identified by a unique
name; holds issues in an implementation-defined order", and `createQueue`
"creates and registers a new empty queue". So the constructor `IssueQueue(name)`
used at `repo.py` line 160 yields a queue with the given name holding no
issues; held issues are referenced by their integer id. -/
structure IssueQueue where
  name : String
  heldIssues : List Nat
deriving DecidableEq, Repr

/-- Modelled from the spec: the issue-state classes of
`twisted/issues/issue.py` are not under the sources. `repo.py` constructs
exactly two initial states: `InQueue(queue)` (line 182), which the spec
describes as "an in-queue state bound to that queue", and
`PendingFixerAnalysis()` (line 188). Any other state value supplied by the
external state machine is opaque to the repository. -/
inductive IssueState where
  | inQueue (queue : IssueQueue)
  | pendingFixerAnalysis
  | opaqueState (tag : Nat)
deriving DecidableEq, Repr

/-- Modelled from the spec: the `Issue` class of `twisted/issues/issue.py` is
not under the sources. Spec section 3: an issue is "identified by a positive
integer id, associated with the ActorHandle that reported it, a description
string, and a current state"; `createIssue` "constructs an Issue ... with that
id, reporter, description, and initialState". So the constructor
`Issue(issueFinder, description, initialState, n)` used at `repo.py` line 168
records its four arguments. The reporting actor is referenced by an opaque
integer handle. -/
structure Issue where
  issueFinder : Nat
  description : String
  state : IssueState
  number : Nat
deriving DecidableEq, Repr

/-- Modelled from the spec: the `Task` class of `twisted/issues/task.py` is
not under the sources. Spec section 3: a task is "identified by a positive
integer id drawn from the same counter as issues, associated with the
reporting ActorHandle and a description". So the constructor
`Task(issuePerson, description, n)` used at `repo.py` line 174 records its
three arguments. -/
structure Task where
  issuePerson : Nat
  description : String
  number : Nat
deriving DecidableEq, Repr

/-- Lookup in an association list embedding a Python dict: the value at the
first entry whose key matches, `none` when the key is absent. -/
def dlookup {α β : Type} [DecidableEq α] : List (α × β) → α → Option β
  | [], _ => none
  | (k, v) :: rest, a => if a = k then some v else dlookup rest a

/-- Insertion into an association list embedding a Python dict assignment
`d[k] = v`: any previous binding of `k` is discarded. -/
def dinsert {α β : Type} [DecidableEq α] (l : List (α × β)) (k : α) (v : β) :
    List (α × β) :=
  (k, v) :: l.filter (fun p => decide (p.1 ≠ k))

/-- The state of an `IssueRepository` (`repo.py` lines 148-154): the shared id
counter and the three maps `issues` (issueNumber to issue), `tasks`
(taskNumber to task), `queues` (name to queue). -/
structure IssueRepository where
  currentIssueNumber : Nat
  issues : List (Nat × Issue)
  tasks : List (Nat × Task)
  queues : List (String × IssueQueue)
deriving DecidableEq, Repr

namespace IssueRepository

/-- `buildQueue` (`repo.py` lines 159-162): construct a fresh queue named
`name`, register it under `name` (overwriting any queue already registered
there), and return it. -/
def buildQueue (self : IssueRepository) (name : String) :
    IssueQueue × IssueRepository :=
  let q : IssueQueue := { name := name, heldIssues := [] }
  (q, { self with queues := dinsert self.queues name q })

/-- `__init__` (`repo.py` lines 148-154): counter at 0, all three maps empty,
then `buildQueue("default")`. -/
def init : IssueRepository :=
  (buildQueue { currentIssueNumber := 0, issues := [], tasks := [], queues := [] }
    "default").2

/-- `getQueue` (`repo.py` lines 156-157): `self.queues[name]`; a missing name
raises `KeyError`, embedded as `IssueError.notFound`. -/
def getQueue (self : IssueRepository) (name : String) :
    Except IssueError IssueQueue :=
  match dlookup self.queues name with
  | some q => .ok q
  | none => .error .notFound

/-- `getIssueNumber` (`repo.py` lines 190-192): increment the shared counter
and return its new value. -/
def getIssueNumber (self : IssueRepository) : Nat × IssueRepository :=
  (self.currentIssueNumber + 1,
    { self with currentIssueNumber := self.currentIssueNumber + 1 })

/-- `buildIssue` (`repo.py` lines 166-170): allocate an id, construct the
issue carrying it, store it in the issue map under that id, return it. -/
def buildIssue (self : IssueRepository) (issueFinder : Nat)
    (description : String) (initialState : IssueState) :
    Issue × IssueRepository :=
  let numbered := self.getIssueNumber
  let issue : Issue :=
    { issueFinder := issueFinder, description := description,
      state := initialState, number := numbered.1 }
  (issue, { numbered.2 with issues := dinsert numbered.2.issues numbered.1 issue })

/-- `buildTask` (`repo.py` lines 172-176): allocate an id from the same
counter, construct the task carrying it, store it in the task map, return
it. -/
def buildTask (self : IssueRepository) (issuePerson : Nat)
    (description : String) : Task × IssueRepository :=
  let numbered := self.getIssueNumber
  let t : Task :=
    { issuePerson := issuePerson, description := description,
      number := numbered.1 }
  (t, { numbered.2 with tasks := dinsert numbered.2.tasks numbered.1 t })

/-- `queueIssue` (`repo.py` lines 178-182): look the queue up by name (the
Python argument `InQueue(self.queues[queueName])` is evaluated before
`buildIssue` is entered, so a missing name raises `KeyError` with no state
change), then build an issue whose initial state is `InQueue` of that queue.
The Python parameter default is `queueName="default"`. -/
def queueIssue (self : IssueRepository) (issueFinder : Nat)
    (description : String) (queueName : String) :
    Except IssueError Issue × IssueRepository :=
  match dlookup self.queues queueName with
  | none => (.error .notFound, self)
  | some q =>
    let built := self.buildIssue issueFinder description (.inQueue q)
    (.ok built.1, built.2)

/-- `reportBug` (`repo.py` lines 184-188): build an issue in the
`PendingFixerAnalysis` state; no queue is involved. -/
def reportBug (self : IssueRepository) (issueFinder : Nat)
    (description : String) : Issue × IssueRepository :=
  self.buildIssue issueFinder description .pendingFixerAnalysis

/-- `loadIssue` (`repo.py` lines 195-203): a successful Deferred carrying the
stored issue, or a failed Deferred (wrapping the `KeyError`) embedded as
`IssueError.notFound`. -/
def loadIssue (self : IssueRepository) (issueNumber : Nat) :
    Except IssueError Issue :=
  match dlookup self.issues issueNumber with
  | some issue => .ok issue
  | none => .error .notFound

/-- `loadTask` (`repo.py` lines 206-214): symmetric to `loadIssue` for the
task map. -/
def loadTask (self : IssueRepository) (taskNumber : Nat) :
    Except IssueError Task :=
  match dlookup self.tasks taskNumber with
  | some task => .ok task
  | none => .error .notFound

end IssueRepository

/-- One registered actor (`IssuePerson`, `repo.py` lines 91-113): a
perspective name and identity name supplied by the transport layer, an
optional attached notifier capability of type `ν` (absent while the actor is
offline), and the two per-issue engagement maps. -/
structure IssuePerson (ν : Type) where
  perspectiveName : String
  identityName : String
  notifier : Option ν
  currentlyFinding : List (Nat × Issue)
  currentlyFixing : List (Nat × Issue)
deriving DecidableEq, Repr

/-- A call an `IssuePerson` forwards to its attached notifier capability:
one of the five methods of `IIssueNotifier` that `IssuePerson` dispatches
(`repo.py` lines 124-138). The actor arguments of the four lifecycle
notifications are the `IssuePerson` objects passed through verbatim. -/
inductive NotifierCall (ν : Type) where
  | text (target : ν) (message : String)
  | fixerReady (target : ν) (issueFixer : IssuePerson ν) (issue : Issue)
  | finderReady (target : ν) (issueFinder : IssuePerson ν) (issue : Issue)
  | finderGone (target : ν) (issueFinder : IssuePerson ν) (issue : Issue)
  | fixerGone (target : ν) (issueFixer : IssuePerson ν) (issue : Issue)
deriving DecidableEq, Repr

namespace IssuePerson

variable {ν : Type}

/-- `__init__` (`repo.py` lines 108-113): no notifier attached, both
engagement maps empty. The Python parameter default is
`identityName="Nobody"`. -/
def mkPerson (perspectiveName identityName : String) : IssuePerson ν :=
  { perspectiveName := perspectiveName, identityName := identityName,
    notifier := none, currentlyFinding := [], currentlyFixing := [] }

/-- `setNotifier` (`repo.py` lines 115-116): last write wins. -/
def setNotifier (self : IssuePerson ν) (newNotifier : ν) : IssuePerson ν :=
  { self with notifier := some newNotifier }

/-- `beginTranscribing` (`repo.py` lines 118-122): when both parties have an
attached notifier, delegate to the capability-level begin-transcript
operation `capBegin` (supplied by the external `IIssueNotifier`
implementation) on the two capabilities and return its result verbatim;
otherwise raise `CouldNotTranscribe`. -/
def beginTranscribing {τ : Type} (capBegin : ν → ν → Except IssueError τ)
    (self otherPerson : IssuePerson ν) : Except IssueError τ :=
  match self.notifier, otherPerson.notifier with
  | some a, some b => capBegin a b
  | _, _ => .error .couldNotTranscribe

/-- `notifyText` (`repo.py` lines 124-126): forward to the attached notifier
when present, silently no-op otherwise. The result is the capability call
performed, `none` when the method no-ops; the person's own state is never
touched. -/
def notifyText (self : IssuePerson ν) (text : String) :
    Option (NotifierCall ν) :=
  match self.notifier with
  | some n => some (.text n text)
  | none => none

/-- `notifyFixerReady` (`repo.py` lines 127-129): forward or silently
no-op. -/
def notifyFixerReady (self : IssuePerson ν) (issueFixer : IssuePerson ν)
    (issue : Issue) : Option (NotifierCall ν) :=
  match self.notifier with
  | some n => some (.fixerReady n issueFixer issue)
  | none => none

/-- `notifyFinderReady` (`repo.py` lines 130-132): forward or silently
no-op. -/
def notifyFinderReady (self : IssuePerson ν) (issueFinder : IssuePerson ν)
    (issue : Issue) : Option (NotifierCall ν) :=
  match self.notifier with
  | some n => some (.finderReady n issueFinder issue)
  | none => none

/-- `notifyFinderGone` (`repo.py` lines 133-135): forward or silently
no-op. -/
def notifyFinderGone (self : IssuePerson ν) (issueFinder : IssuePerson ν)
    (issue : Issue) : Option (NotifierCall ν) :=
  match self.notifier with
  | some n => some (.finderGone n issueFinder issue)
  | none => none

/-- `notifyFixerGone` (`repo.py` lines 136-138): forward or silently
no-op. -/
def notifyFixerGone (self : IssuePerson ν) (issueFixer : IssuePerson ν)
    (issue : Issue) : Option (NotifierCall ν) :=
  match self.notifier with
  | some n => some (.fixerGone n issueFixer issue)
  | none => none

end IssuePerson

/-! ### Call sequences against a repository -/

/-- One creation call of the kind claim C1 ranges over: `buildIssue` or
`buildTask`, with its Python arguments. -/
inductive BuildCall where
  | issue (issueFinder : Nat) (description : String) (initialState : IssueState)
  | task (issuePerson : Nat) (description : String)
deriving DecidableEq, Repr

/-- The entity returned by one `BuildCall`. -/
inductive BuildResult where
  | issue (i : Issue)
  | task (t : Task)
deriving DecidableEq, Repr

/-- The id carried by a returned entity (the `number` stored in the `Issue`
or `Task` object itself). -/
def BuildResult.number : BuildResult → Nat
  | .issue i => i.number
  | .task t => t.number

/-- The ids carried by the issue entities in a result list. -/
def issueNumbers (rs : List BuildResult) : List Nat :=
  rs.filterMap fun r =>
    match r with
    | .issue i => some i.number
    | .task _ => none

/-- The ids carried by the task entities in a result list. -/
def taskNumbers (rs : List BuildResult) : List Nat :=
  rs.filterMap fun r =>
    match r with
    | .issue _ => none
    | .task t => some t.number

/-- Run a sequence of `buildIssue`/`buildTask` calls against a repository,
collecting the returned entities in order. -/
def runBuilds : IssueRepository → List BuildCall → List BuildResult × IssueRepository
  | r, [] => ([], r)
  | r, .issue f d s :: rest =>
    (.issue (r.buildIssue f d s).1 :: (runBuilds (r.buildIssue f d s).2 rest).1,
      (runBuilds (r.buildIssue f d s).2 rest).2)
  | r, .task p d :: rest =>
    (.task (r.buildTask p d).1 :: (runBuilds (r.buildTask p d).2 rest).1,
      (runBuilds (r.buildTask p d).2 rest).2)

/-- One mutating repository call of the kind claim C10 ranges over, with its
Python arguments. -/
inductive RepoCall where
  | buildIssue (issueFinder : Nat) (description : String) (initialState : IssueState)
  | buildTask (issuePerson : Nat) (description : String)
  | queueIssue (issueFinder : Nat) (description : String) (queueName : String)
  | reportBug (issueFinder : Nat) (description : String)
  | buildQueue (name : String)
deriving DecidableEq, Repr

/-- The repository state after one `RepoCall` (the returned entity, if any,
is discarded; a failing `queueIssue` leaves the state as it was). -/
def applyCall (r : IssueRepository) : RepoCall → IssueRepository
  | .buildIssue f d s => (r.buildIssue f d s).2
  | .buildTask p d => (r.buildTask p d).2
  | .queueIssue f d qn => (r.queueIssue f d qn).2
  | .reportBug f d => (r.reportBug f d).2
  | .buildQueue n => (r.buildQueue n).2

/-- The repository state after a sequence of `RepoCall`s. -/
def runCalls : IssueRepository → List RepoCall → IssueRepository
  | r, [] => r
  | r, c :: rest => runCalls (applyCall r c) rest

/-- The structural invariant of claim C10: the key sets of the issue map and
the task map are disjoint subsets of `{1, ..., currentIssueNumber}`, and
every stored entity carries the id under which it is stored. -/
def repoInv (r : IssueRepository) : Prop :=
  (∀ n ∈ r.issues.map Prod.fst, 1 ≤ n ∧ n ≤ r.currentIssueNumber) ∧
  (∀ n ∈ r.tasks.map Prod.fst, 1 ≤ n ∧ n ≤ r.currentIssueNumber) ∧
  (∀ n ∈ r.issues.map Prod.fst, n ∉ r.tasks.map Prod.fst) ∧
  (∀ p ∈ r.issues, p.2.number = p.1) ∧
  (∀ p ∈ r.tasks, p.2.number = p.1)

/-! ### Lemmas about the association-list embedding of dicts -/

theorem dlookup_filter_ne {α β : Type} [DecidableEq α] (l : List (α × β))
    (k a : α) (hne : a ≠ k) :
    dlookup (l.filter (fun p => decide (p.1 ≠ k))) a = dlookup l a := by
  induction l with
  | nil => rfl
  | cons p rest ih =>
    obtain ⟨pk, pv⟩ := p
    by_cases hp : pk = k
    · rw [List.filter_cons_of_neg (by simp [hp])]
      rw [ih]
      subst hp
      simp [dlookup, hne]
    · rw [List.filter_cons_of_pos (by simp [hp])]
      simp only [dlookup]
      rw [ih]

/-- The fundamental property of `dinsert`: lookup afterwards sees the new
binding at `k` and is unchanged elsewhere. -/
theorem dlookup_dinsert {α β : Type} [DecidableEq α] (l : List (α × β))
    (k : α) (v : β) (a : α) :
    dlookup (dinsert l k v) a = if a = k then some v else dlookup l a := by
  by_cases h : a = k
  · simp [dinsert, dlookup, h]
  · simp only [dinsert, dlookup, if_neg h]
    exact dlookup_filter_ne l k a h

/-- Membership in `dinsert` is the new entry or an old entry with a different
key. -/
theorem mem_dinsert {α β : Type} [DecidableEq α] {l : List (α × β)}
    {k : α} {v : β} {p : α × β} (h : p ∈ dinsert l k v) :
    p = (k, v) ∨ (p ∈ l ∧ p.1 ≠ k) := by
  simp only [dinsert, List.mem_cons, List.mem_filter, ne_eq, decide_not,
    Bool.not_eq_true', decide_eq_false_iff_not] at h
  tauto

/-! ### Behaviour of creation-call sequences -/

theorem runBuilds_numbers (calls : List BuildCall) : ∀ r : IssueRepository,
    ((runBuilds r calls).1.map BuildResult.number
        = List.range' (r.currentIssueNumber + 1) calls.length) ∧
    (runBuilds r calls).2.currentIssueNumber
        = r.currentIssueNumber + calls.length := by
  induction calls with
  | nil => intro r; simp [runBuilds]
  | cons c rest ih =>
    intro r
    cases c with
    | issue f d s =>
      have h := ih (r.buildIssue f d s).2
      have hc : (r.buildIssue f d s).2.currentIssueNumber
          = r.currentIssueNumber + 1 := rfl
      refine ⟨?_, ?_⟩
      · simp only [runBuilds, List.map_cons, List.length_cons, List.range'_succ]
        rw [h.1, hc]
        rfl
      · simp only [runBuilds, List.length_cons]
        rw [h.2, hc]
        omega
    | task p d =>
      have h := ih (r.buildTask p d).2
      have hc : (r.buildTask p d).2.currentIssueNumber
          = r.currentIssueNumber + 1 := rfl
      refine ⟨?_, ?_⟩
      · simp only [runBuilds, List.map_cons, List.length_cons, List.range'_succ]
        rw [h.1, hc]
        rfl
      · simp only [runBuilds, List.length_cons]
        rw [h.2, hc]
        omega

theorem issueNumbers_cons_issue (i : Issue) (rs : List BuildResult) :
    issueNumbers (.issue i :: rs) = i.number :: issueNumbers rs := by
  simp [issueNumbers, List.filterMap_cons]

theorem issueNumbers_cons_task (t : Task) (rs : List BuildResult) :
    issueNumbers (.task t :: rs) = issueNumbers rs := by
  simp [issueNumbers, List.filterMap_cons]

theorem taskNumbers_cons_issue (i : Issue) (rs : List BuildResult) :
    taskNumbers (.issue i :: rs) = taskNumbers rs := by
  simp [taskNumbers, List.filterMap_cons]

theorem taskNumbers_cons_task (t : Task) (rs : List BuildResult) :
    taskNumbers (.task t :: rs) = t.number :: taskNumbers rs := by
  simp [taskNumbers, List.filterMap_cons]

theorem mem_issueNumbers {rs : List BuildResult} {n : Nat} :
    n ∈ issueNumbers rs ↔ ∃ i : Issue, BuildResult.issue i ∈ rs ∧ i.number = n := by
  constructor
  · intro h
    rcases List.mem_filterMap.1 h with ⟨a, ha, hfa⟩
    cases a with
    | issue i => exact ⟨i, ha, by simpa using hfa⟩
    | task t => simp at hfa
  · rintro ⟨i, hi, hn⟩
    exact List.mem_filterMap.2 ⟨.issue i, hi, by simp [hn]⟩

theorem mem_taskNumbers {rs : List BuildResult} {n : Nat} :
    n ∈ taskNumbers rs ↔ ∃ t : Task, BuildResult.task t ∈ rs ∧ t.number = n := by
  constructor
  · intro h
    rcases List.mem_filterMap.1 h with ⟨a, ha, hfa⟩
    cases a with
    | issue i => simp at hfa
    | task t => exact ⟨t, ha, by simpa using hfa⟩
  · rintro ⟨t, ht, hn⟩
    exact List.mem_filterMap.2 ⟨.task t, ht, by simp [hn]⟩

/-- The central bookkeeping lemma for creation-call sequences: every entity a
sequence returns is stored in the corresponding map under its own carried id
(and that id is above the starting counter), while every id not carried by a
returned entity looks up to exactly what it looked up to before the
sequence. -/
theorem runBuilds_lookup (calls : List BuildCall) : ∀ r : IssueRepository,
    (∀ i : Issue, BuildResult.issue i ∈ (runBuilds r calls).1 →
      r.currentIssueNumber < i.number ∧
      dlookup (runBuilds r calls).2.issues i.number = some i) ∧
    (∀ t : Task, BuildResult.task t ∈ (runBuilds r calls).1 →
      r.currentIssueNumber < t.number ∧
      dlookup (runBuilds r calls).2.tasks t.number = some t) ∧
    (∀ n : Nat, n ∉ issueNumbers (runBuilds r calls).1 →
      dlookup (runBuilds r calls).2.issues n = dlookup r.issues n) ∧
    (∀ n : Nat, n ∉ taskNumbers (runBuilds r calls).1 →
      dlookup (runBuilds r calls).2.tasks n = dlookup r.tasks n) := by
  induction calls with
  | nil =>
    intro r
    refine ⟨?_, ?_, ?_, ?_⟩ <;> simp [runBuilds]
  | cons c rest ih =>
    intro r
    cases c with
    | issue f d s =>
      obtain ⟨ih1, ih2, ih3, ih4⟩ := ih (r.buildIssue f d s).2
      have hc : (r.buildIssue f d s).2.currentIssueNumber
          = r.currentIssueNumber + 1 := rfl
      have hnum : (r.buildIssue f d s).1.number = r.currentIssueNumber + 1 := rfl
      have hii : (r.buildIssue f d s).2.issues
          = dinsert r.issues (r.currentIssueNumber + 1) (r.buildIssue f d s).1 := rfl
      have hti : (r.buildIssue f d s).2.tasks = r.tasks := rfl
      have hrun1 : (runBuilds r (.issue f d s :: rest)).1
          = .issue (r.buildIssue f d s).1
            :: (runBuilds (r.buildIssue f d s).2 rest).1 := rfl
      have hrun2 : (runBuilds r (.issue f d s :: rest)).2
          = (runBuilds (r.buildIssue f d s).2 rest).2 := rfl
      have hfresh : (r.buildIssue f d s).1.number
          ∉ issueNumbers (runBuilds (r.buildIssue f d s).2 rest).1 := by
        intro hmem
        rcases mem_issueNumbers.1 hmem with ⟨i, hi, hn⟩
        have hlt := (ih1 i hi).1
        rw [hc] at hlt
        rw [hnum] at hn
        omega
      have hlook0 : dlookup (runBuilds (r.buildIssue f d s).2 rest).2.issues
          (r.buildIssue f d s).1.number = some (r.buildIssue f d s).1 := by
        rw [ih3 _ hfresh, hii, dlookup_dinsert]
        simp [hnum]
      refine ⟨?_, ?_, ?_, ?_⟩
      · intro i hi
        rw [hrun1] at hi
        rcases List.mem_cons.1 hi with he | htail
        · injection he with he
          subst he
          exact ⟨by rw [hnum]; omega, by rw [hrun2]; exact hlook0⟩
        · have h2 := ih1 i htail
          rw [hc] at h2
          exact ⟨by omega, by rw [hrun2]; exact h2.2⟩
      · intro t ht
        rw [hrun1] at ht
        rcases List.mem_cons.1 ht with he | htail
        · simp at he
        · have h2 := ih2 t htail
          rw [hc] at h2
          exact ⟨by omega, by rw [hrun2]; exact h2.2⟩
      · intro n hn
        rw [hrun1, issueNumbers_cons_issue] at hn
        have hne : n ≠ (r.buildIssue f d s).1.number := by
          intro h
          exact hn (h ▸ List.mem_cons_self _ _)
        have hnt : n ∉ issueNumbers (runBuilds (r.buildIssue f d s).2 rest).1 :=
          fun h => hn (List.mem_cons_of_mem _ h)
        rw [hrun2, ih3 n hnt, hii, dlookup_dinsert, if_neg (hnum ▸ hne)]
      · intro n hn
        rw [hrun1, taskNumbers_cons_issue] at hn
        rw [hrun2, ih4 n hn, hti]
    | task p d =>
      obtain ⟨ih1, ih2, ih3, ih4⟩ := ih (r.buildTask p d).2
      have hc : (r.buildTask p d).2.currentIssueNumber
          = r.currentIssueNumber + 1 := rfl
      have hnum : (r.buildTask p d).1.number = r.currentIssueNumber + 1 := rfl
      have hii : (r.buildTask p d).2.issues = r.issues := rfl
      have hti : (r.buildTask p d).2.tasks
          = dinsert r.tasks (r.currentIssueNumber + 1) (r.buildTask p d).1 := rfl
      have hrun1 : (runBuilds r (.task p d :: rest)).1
          = .task (r.buildTask p d).1
            :: (runBuilds (r.buildTask p d).2 rest).1 := rfl
      have hrun2 : (runBuilds r (.task p d :: rest)).2
          = (runBuilds (r.buildTask p d).2 rest).2 := rfl
      have hfresh : (r.buildTask p d).1.number
          ∉ taskNumbers (runBuilds (r.buildTask p d).2 rest).1 := by
        intro hmem
        rcases mem_taskNumbers.1 hmem with ⟨t, ht, hn⟩
        have hlt := (ih2 t ht).1
        rw [hc] at hlt
        rw [hnum] at hn
        omega
      have hlook0 : dlookup (runBuilds (r.buildTask p d).2 rest).2.tasks
          (r.buildTask p d).1.number = some (r.buildTask p d).1 := by
        rw [ih4 _ hfresh, hti, dlookup_dinsert]
        simp [hnum]
      refine ⟨?_, ?_, ?_, ?_⟩
      · intro i hi
        rw [hrun1] at hi
        rcases List.mem_cons.1 hi with he | htail
        · simp at he
        · have h2 := ih1 i htail
          rw [hc] at h2
          exact ⟨by omega, by rw [hrun2]; exact h2.2⟩
      · intro t ht
        rw [hrun1] at ht
        rcases List.mem_cons.1 ht with he | htail
        · injection he with he
          subst he
          exact ⟨by rw [hnum]; omega, by rw [hrun2]; exact hlook0⟩
        · have h2 := ih2 t htail
          rw [hc] at h2
          exact ⟨by omega, by rw [hrun2]; exact h2.2⟩
      · intro n hn
        rw [hrun1, issueNumbers_cons_task] at hn
        rw [hrun2, ih3 n hn, hii]
      · intro n hn
        rw [hrun1, taskNumbers_cons_task] at hn
        have hne : n ≠ (r.buildTask p d).1.number := by
          intro h
          exact hn (h ▸ List.mem_cons_self _ _)
        have hnt : n ∉ taskNumbers (runBuilds (r.buildTask p d).2 rest).1 :=
          fun h => hn (List.mem_cons_of_mem _ h)
        rw [hrun2, ih4 n hnt, hti, dlookup_dinsert, if_neg (hnum ▸ hne)]

/-! ### The structural invariant of reachable repository states -/

theorem mem_keys_dinsert {α β : Type} [DecidableEq α] {l : List (α × β)}
    {k : α} {v : β} {a : α} (h : a ∈ (dinsert l k v).map Prod.fst) :
    a = k ∨ a ∈ l.map Prod.fst := by
  rcases List.mem_map.1 h with ⟨p, hp, rfl⟩
  rcases mem_dinsert hp with rfl | ⟨hpl, _⟩
  · exact Or.inl rfl
  · exact Or.inr (List.mem_map.2 ⟨p, hpl, rfl⟩)

theorem buildIssue_repoInv {r : IssueRepository} (hinv : repoInv r)
    (f : Nat) (d : String) (s : IssueState) :
    repoInv (r.buildIssue f d s).2 := by
  obtain ⟨h1, h2, h3, h4, h5⟩ := hinv
  have hc : (r.buildIssue f d s).2.currentIssueNumber
      = r.currentIssueNumber + 1 := rfl
  have hii : (r.buildIssue f d s).2.issues
      = dinsert r.issues (r.currentIssueNumber + 1) (r.buildIssue f d s).1 := rfl
  have hti : (r.buildIssue f d s).2.tasks = r.tasks := rfl
  refine ⟨?_, ?_, ?_, ?_, ?_⟩
  · intro n hn
    rw [hii] at hn
    rw [hc]
    rcases mem_keys_dinsert hn with rfl | hold
    · omega
    · have := h1 n hold
      omega
  · intro n hn
    rw [hti] at hn
    rw [hc]
    have := h2 n hn
    omega
  · intro n hn
    rw [hii] at hn
    rw [hti]
    rcases mem_keys_dinsert hn with rfl | hold
    · intro hmem
      have := h2 _ hmem
      omega
    · exact h3 n hold
  · intro p hp
    rw [hii] at hp
    rcases mem_dinsert hp with rfl | ⟨hpl, _⟩
    · rfl
    · exact h4 p hpl
  · intro p hp
    rw [hti] at hp
    exact h5 p hp

theorem buildTask_repoInv {r : IssueRepository} (hinv : repoInv r)
    (pe : Nat) (d : String) :
    repoInv (r.buildTask pe d).2 := by
  obtain ⟨h1, h2, h3, h4, h5⟩ := hinv
  have hc : (r.buildTask pe d).2.currentIssueNumber
      = r.currentIssueNumber + 1 := rfl
  have hii : (r.buildTask pe d).2.issues = r.issues := rfl
  have hti : (r.buildTask pe d).2.tasks
      = dinsert r.tasks (r.currentIssueNumber + 1) (r.buildTask pe d).1 := rfl
  refine ⟨?_, ?_, ?_, ?_, ?_⟩
  · intro n hn
    rw [hii] at hn
    rw [hc]
    have := h1 n hn
    omega
  · intro n hn
    rw [hti] at hn
    rw [hc]
    rcases mem_keys_dinsert hn with rfl | hold
    · omega
    · have := h2 n hold
      omega
  · intro n hn
    rw [hii] at hn
    rw [hti]
    intro hmem
    rcases mem_keys_dinsert hmem with rfl | hold
    · have := h1 _ hn
      omega
    · exact h3 n hn hold
  · intro p hp
    rw [hii] at hp
    exact h4 p hp
  · intro p hp
    rw [hti] at hp
    rcases mem_dinsert hp with rfl | ⟨hpl, _⟩
    · rfl
    · exact h5 p hpl

theorem applyCall_repoInv {r : IssueRepository} (hinv : repoInv r)
    (c : RepoCall) : repoInv (applyCall r c) := by
  cases c with
  | buildIssue f d s => exact buildIssue_repoInv hinv f d s
  | buildTask pe d => exact buildTask_repoInv hinv pe d
  | queueIssue f d qn =>
    show repoInv (r.queueIssue f d qn).2
    cases hq : dlookup r.queues qn with
    | none =>
      have hst : (r.queueIssue f d qn).2 = r := by
        simp [IssueRepository.queueIssue, hq]
      rw [hst]
      exact hinv
    | some q =>
      have hst : (r.queueIssue f d qn).2
          = (r.buildIssue f d (.inQueue q)).2 := by
        simp [IssueRepository.queueIssue, hq]
      rw [hst]
      exact buildIssue_repoInv hinv f d _
  | reportBug f d => exact buildIssue_repoInv hinv f d _
  | buildQueue n =>
    exact ⟨hinv.1, hinv.2.1, hinv.2.2.1, hinv.2.2.2.1, hinv.2.2.2.2⟩

theorem runCalls_repoInv (calls : List RepoCall) :
    ∀ r : IssueRepository, repoInv r → repoInv (runCalls r calls) := by
  induction calls with
  | nil => intro r h; exact h
  | cons c rest ih => intro r h; exact ih _ (applyCall_repoInv h c)

theorem repoInv_init : repoInv IssueRepository.init := by
  refine ⟨?_, ?_, ?_, ?_, ?_⟩ <;>
    simp [IssueRepository.init, IssueRepository.buildQueue]

/-- Only `buildQueue` registers a queue name: every other call, and a
`buildQueue` of a different name, leaves a missing name missing. -/
theorem dlookup_queues_applyCall (r : IssueRepository) (c : RepoCall)
    (name : String) (hne : c ≠ .buildQueue name)
    (h : dlookup r.queues name = none) :
    dlookup (applyCall r c).queues name = none := by
  cases c with
  | buildIssue f d s => exact h
  | buildTask pe d => exact h
  | reportBug f d => exact h
  | queueIssue f d qn =>
    have hq2 : (r.queueIssue f d qn).2.queues = r.queues := by
      cases hq : dlookup r.queues qn <;>
        simp [IssueRepository.queueIssue, IssueRepository.buildIssue,
          IssueRepository.getIssueNumber, hq]
    show dlookup (r.queueIssue f d qn).2.queues name = none
    rw [hq2]
    exact h
  | buildQueue n =>
    have hn : n ≠ name := by
      intro he
      exact hne (by rw [he])
    have hqs : (r.buildQueue n).2.queues
        = dinsert r.queues n { name := n, heldIssues := [] } := rfl
    show dlookup (r.buildQueue n).2.queues name = none
    rw [hqs, dlookup_dinsert, if_neg (Ne.symm hn)]
    exact h

theorem runCalls_queues_miss (calls : List RepoCall) :
    ∀ (r : IssueRepository) (name : String),
      dlookup r.queues name = none → RepoCall.buildQueue name ∉ calls →
      dlookup (runCalls r calls).queues name = none := by
  induction calls with
  | nil =>
    intro r name h _
    exact h
  | cons c rest ih =>
    intro r name h hmem
    have hc : c ≠ RepoCall.buildQueue name := by
      intro he
      exact hmem (he ▸ List.mem_cons_self _ _)
    exact ih _ name (dlookup_queues_applyCall r c name hc h)
      (fun hm => hmem (List.mem_cons_of_mem _ hm))

/-! ### The claims -/

/-- C1: For every sequence of N calls mixing `buildIssue` (createIssue) and
`buildTask` (createTask) on a freshly constructed `IssueRepository`, the ids
carried by the returned entities are exactly the set `{1, ..., N}`, with no
repeats and no gaps, regardless of the order and mix of issue versus task
creations. -/
theorem created_ids_exactly_one_to_N (calls : List BuildCall) :
    ((runBuilds IssueRepository.init calls).1.map BuildResult.number).Nodup ∧
    ∀ k : Nat,
      k ∈ (runBuilds IssueRepository.init calls).1.map BuildResult.number ↔
        1 ≤ k ∧ k ≤ calls.length := by
  have h : (runBuilds IssueRepository.init calls).1.map BuildResult.number
      = List.range' 1 calls.length :=
    (runBuilds_numbers calls IssueRepository.init).1
  rw [h]
  refine ⟨List.nodup_range' 1 calls.length, ?_⟩
  intro k
  rw [List.mem_range'_1]
  omega

theorem created_ids_witness :
    ((runBuilds IssueRepository.init
        [BuildCall.task 5 "t", BuildCall.issue 2 "d" IssueState.pendingFixerAnalysis]).1.map
      BuildResult.number).Nodup ∧
    (2 ∈ (runBuilds IssueRepository.init
        [BuildCall.task 5 "t", BuildCall.issue 2 "d" IssueState.pendingFixerAnalysis]).1.map
      BuildResult.number ↔ 1 ≤ 2 ∧ 2 ≤ ([BuildCall.task 5 "t",
        BuildCall.issue 2 "d" IssueState.pendingFixerAnalysis] : List BuildCall).length) :=
  ⟨(created_ids_exactly_one_to_N _).1, (created_ids_exactly_one_to_N _).2 2⟩

/-- C2: For every id returned by a prior `buildIssue` (createIssue),
`loadIssue` (lookupIssue) succeeds and its success value is the very issue
that the creation returned; for every id never stored as an issue (including
ids issued to tasks and ids never issued at all), `loadIssue` fails with
NotFound; symmetrically for `buildTask` (createTask) and `loadTask`
(lookupTask). -/
theorem load_after_build (calls : List BuildCall) :
    (∀ i : Issue, BuildResult.issue i ∈ (runBuilds IssueRepository.init calls).1 →
      (runBuilds IssueRepository.init calls).2.loadIssue i.number = .ok i) ∧
    (∀ n : Nat, n ∉ issueNumbers (runBuilds IssueRepository.init calls).1 →
      (runBuilds IssueRepository.init calls).2.loadIssue n = .error .notFound) ∧
    (∀ t : Task, BuildResult.task t ∈ (runBuilds IssueRepository.init calls).1 →
      (runBuilds IssueRepository.init calls).2.loadTask t.number = .ok t) ∧
    (∀ n : Nat, n ∉ taskNumbers (runBuilds IssueRepository.init calls).1 →
      (runBuilds IssueRepository.init calls).2.loadTask n = .error .notFound) := by
  obtain ⟨h1, h2, h3, h4⟩ := runBuilds_lookup calls IssueRepository.init
  have hinitIss : IssueRepository.init.issues = [] := rfl
  have hinitTsk : IssueRepository.init.tasks = [] := rfl
  refine ⟨?_, ?_, ?_, ?_⟩
  · intro i hi
    simp [IssueRepository.loadIssue, (h1 i hi).2]
  · intro n hn
    have := h3 n hn
    rw [hinitIss] at this
    simp [IssueRepository.loadIssue, this, dlookup]
  · intro t ht
    simp [IssueRepository.loadTask, (h2 t ht).2]
  · intro n hn
    have := h4 n hn
    rw [hinitTsk] at this
    simp [IssueRepository.loadTask, this, dlookup]

theorem load_after_build_witness :
    (runBuilds IssueRepository.init
        [BuildCall.task 7 "investigate",
          BuildCall.issue 3 "disk full" IssueState.pendingFixerAnalysis]).2.loadIssue 2
      = .ok { issueFinder := 3, description := "disk full",
              state := .pendingFixerAnalysis, number := 2 } ∧
    (runBuilds IssueRepository.init
        [BuildCall.task 7 "investigate",
          BuildCall.issue 3 "disk full" IssueState.pendingFixerAnalysis]).2.loadIssue 1
      = .error .notFound ∧
    (runBuilds IssueRepository.init
        [BuildCall.task 7 "investigate",
          BuildCall.issue 3 "disk full" IssueState.pendingFixerAnalysis]).2.loadTask 1
      = .ok { issuePerson := 7, description := "investigate", number := 1 } ∧
    (runBuilds IssueRepository.init
        [BuildCall.task 7 "investigate",
          BuildCall.issue 3 "disk full" IssueState.pendingFixerAnalysis]).2.loadTask 2
      = .error .notFound :=
  ⟨(load_after_build _).1
      { issueFinder := 3, description := "disk full",
        state := .pendingFixerAnalysis, number := 2 } (by decide),
    (load_after_build _).2.1 1 (by decide),
    (load_after_build _).2.2.1
      { issuePerson := 7, description := "investigate", number := 1 } (by decide),
    (load_after_build _).2.2.2 2 (by decide)⟩

/-- C3: Every error condition of the repository — `getQueue` on an unknown
queue name, `queueIssue` (enqueueIssue) on an unknown queue name, `loadIssue`
(lookupIssue) on an unknown issue id, `loadTask` (lookupTask) on an unknown
task id — is reported to the caller as the typed failure value
`IssueError.notFound`, never as any other error (the embedding is total, so
no untyped crash can escape a call). -/
theorem repository_failures_are_notFound (r : IssueRepository) (name : String)
    (f : Nat) (d : String) (n : Nat) (e : IssueError) :
    (r.getQueue name = .error e → e = .notFound) ∧
    ((r.queueIssue f d name).1 = .error e → e = .notFound) ∧
    (r.loadIssue n = .error e → e = .notFound) ∧
    (r.loadTask n = .error e → e = .notFound) := by
  refine ⟨?_, ?_, ?_, ?_⟩
  · intro h
    cases hq : dlookup r.queues name <;>
      simp [IssueRepository.getQueue, hq] at h
    exact h.symm
  · intro h
    cases hq : dlookup r.queues name <;>
      simp [IssueRepository.queueIssue, hq] at h
    exact h.symm
  · intro h
    cases hq : dlookup r.issues n <;>
      simp [IssueRepository.loadIssue, hq] at h
    exact h.symm
  · intro h
    cases hq : dlookup r.tasks n <;>
      simp [IssueRepository.loadTask, hq] at h
    exact h.symm

theorem repository_failures_witness :
    IssueError.notFound = IssueError.notFound :=
  (repository_failures_are_notFound IssueRepository.init "missing" 0 "d" 1
    IssueError.notFound).1 rfl

/-- C4: If `queueIssue` (enqueueIssue) is called with a queue name registered
in the repository, it succeeds and returns an issue whose state references
that queue; if the queue name is not registered, it fails and leaves the
repository unchanged: the id counter is not advanced and no issue is added to
the issue map. -/
theorem queueIssue_success_or_unchanged (r : IssueRepository) (f : Nat)
    (d qn : String) :
    (∀ q : IssueQueue, r.getQueue qn = .ok q →
      ∃ iss : Issue, (r.queueIssue f d qn).1 = .ok iss ∧
        iss.state = .inQueue q) ∧
    (r.getQueue qn = .error .notFound →
      (r.queueIssue f d qn).2 = r ∧
      (r.queueIssue f d qn).1 = .error .notFound) := by
  constructor
  · intro q hq
    have hl : dlookup r.queues qn = some q := by
      cases h : dlookup r.queues qn with
      | none => rw [IssueRepository.getQueue, h] at hq; cases hq
      | some q2 =>
        rw [IssueRepository.getQueue, h] at hq
        injection hq with hq
        rw [hq]
    refine ⟨(r.buildIssue f d (.inQueue q)).1, ?_, rfl⟩
    simp [IssueRepository.queueIssue, hl]
  · intro hq
    have hl : dlookup r.queues qn = none := by
      cases h : dlookup r.queues qn with
      | none => rfl
      | some q2 => rw [IssueRepository.getQueue, h] at hq; cases hq
    constructor <;> simp [IssueRepository.queueIssue, hl]

theorem queueIssue_witness :
    (∃ iss : Issue,
        (IssueRepository.init.queueIssue 4 "disk full" "default").1 = .ok iss ∧
        iss.state = .inQueue { name := "default", heldIssues := [] }) ∧
    ((IssueRepository.init.queueIssue 4 "disk full" "missing").2
        = IssueRepository.init ∧
      (IssueRepository.init.queueIssue 4 "disk full" "missing").1
        = .error .notFound) :=
  ⟨(queueIssue_success_or_unchanged IssueRepository.init 4 "disk full"
        "default").1 { name := "default", heldIssues := [] } rfl,
    (queueIssue_success_or_unchanged IssueRepository.init 4 "disk full"
        "missing").2 rfl⟩

/-- C5: For every pair of `IssuePerson`s (ActorHandles) that both currently
have an attached notifier, `beginTranscribing` (beginTranscript) delegates to
the notifier capability's begin-transcript operation on the two capabilities
and returns its result; if either of the two handles lacks a notifier, it
fails with CouldNotTranscribe. -/
theorem beginTranscribing_delegates (ν τ : Type)
    (capBegin : ν → ν → Except IssueError τ) (p q : IssuePerson ν) :
    (∀ a b : ν, p.notifier = some a → q.notifier = some b →
      IssuePerson.beginTranscribing capBegin p q = capBegin a b) ∧
    ((p.notifier = none ∨ q.notifier = none) →
      IssuePerson.beginTranscribing capBegin p q
        = .error .couldNotTranscribe) := by
  constructor
  · intro a b ha hb
    simp [IssuePerson.beginTranscribing, ha, hb]
  · intro h
    rcases h with h | h
    · cases hq : q.notifier <;>
        simp [IssuePerson.beginTranscribing, h, hq]
    · cases hp : p.notifier <;>
        simp [IssuePerson.beginTranscribing, h, hp]

theorem beginTranscribing_witness :
    IssuePerson.beginTranscribing (fun a b : Nat => Except.ok (a + b))
        ((IssuePerson.mkPerson "alice" "Nobody").setNotifier 1)
        ((IssuePerson.mkPerson "bob" "Nobody").setNotifier 2) = Except.ok 3 ∧
    IssuePerson.beginTranscribing (fun a b : Nat => Except.ok (a + b))
        ((IssuePerson.mkPerson "alice" "Nobody").setNotifier 1)
        (IssuePerson.mkPerson "carol" "Nobody")
      = .error .couldNotTranscribe := by
  constructor
  · have h := (beginTranscribing_delegates Nat Nat
        (fun a b : Nat => Except.ok (a + b))
        ((IssuePerson.mkPerson "alice" "Nobody").setNotifier 1)
        ((IssuePerson.mkPerson "bob" "Nobody").setNotifier 2)).1 1 2 rfl rfl
    simpa using h
  · exact (beginTranscribing_delegates Nat Nat
        (fun a b : Nat => Except.ok (a + b))
        ((IssuePerson.mkPerson "alice" "Nobody").setNotifier 1)
        (IssuePerson.mkPerson "carol" "Nobody")).2 (Or.inr rfl)

/-- C6: For every `IssuePerson` (ActorHandle) with no attached notifier:
`notifyText` (sendText) and the four lifecycle notifications
(`notifyFixerReady`, `notifyFinderReady`, `notifyFinderGone`,
`notifyFixerGone`) silently no-op — they emit no capability call, change no
state and raise nothing — while `beginTranscribing` (beginTranscript) fails
with CouldNotTranscribe; none of these operations produces any other
error. -/
theorem no_notifier_noops (ν τ : Type)
    (p otherPerson fixer finder : IssuePerson ν) (text : String)
    (issue : Issue) (capBegin : ν → ν → Except IssueError τ)
    (h : p.notifier = none) :
    p.notifyText text = none ∧
    p.notifyFixerReady fixer issue = none ∧
    p.notifyFinderReady finder issue = none ∧
    p.notifyFinderGone finder issue = none ∧
    p.notifyFixerGone fixer issue = none ∧
    IssuePerson.beginTranscribing capBegin p otherPerson
      = .error .couldNotTranscribe := by
  refine ⟨?_, ?_, ?_, ?_, ?_, ?_⟩
  · simp [IssuePerson.notifyText, h]
  · simp [IssuePerson.notifyFixerReady, h]
  · simp [IssuePerson.notifyFinderReady, h]
  · simp [IssuePerson.notifyFinderGone, h]
  · simp [IssuePerson.notifyFixerGone, h]
  · cases hq : otherPerson.notifier <;>
      simp [IssuePerson.beginTranscribing, h, hq]

theorem no_notifier_noops_witness :
    (IssuePerson.mkPerson "dave" "Nobody" : IssuePerson Nat).notifyText "hello"
      = none ∧
    (IssuePerson.mkPerson "dave" "Nobody" : IssuePerson Nat).notifyFixerReady
      (IssuePerson.mkPerson "fiona" "Nobody")
      { issueFinder := 0, description := "d",
        state := .pendingFixerAnalysis, number := 1 } = none ∧
    (IssuePerson.mkPerson "dave" "Nobody" : IssuePerson Nat).notifyFinderReady
      (IssuePerson.mkPerson "gail" "Nobody")
      { issueFinder := 0, description := "d",
        state := .pendingFixerAnalysis, number := 1 } = none ∧
    (IssuePerson.mkPerson "dave" "Nobody" : IssuePerson Nat).notifyFinderGone
      (IssuePerson.mkPerson "gail" "Nobody")
      { issueFinder := 0, description := "d",
        state := .pendingFixerAnalysis, number := 1 } = none ∧
    (IssuePerson.mkPerson "dave" "Nobody" : IssuePerson Nat).notifyFixerGone
      (IssuePerson.mkPerson "fiona" "Nobody")
      { issueFinder := 0, description := "d",
        state := .pendingFixerAnalysis, number := 1 } = none ∧
    IssuePerson.beginTranscribing (fun a b : Nat => Except.ok (a + b))
      (IssuePerson.mkPerson "dave" "Nobody")
      ((IssuePerson.mkPerson "erin" "Nobody").setNotifier 9)
      = .error .couldNotTranscribe :=
  no_notifier_noops Nat Nat (IssuePerson.mkPerson "dave" "Nobody")
    ((IssuePerson.mkPerson "erin" "Nobody").setNotifier 9)
    (IssuePerson.mkPerson "fiona" "Nobody")
    (IssuePerson.mkPerson "gail" "Nobody") "hello"
    { issueFinder := 0, description := "d",
      state := .pendingFixerAnalysis, number := 1 }
    (fun a b : Nat => Except.ok (a + b)) rfl

/-- C7: For every queue name, calling `getQueue name` immediately after
`buildQueue name` (createQueue) returns the identical queue object that
`buildQueue` returned; and in every repository state reachable from a fresh
repository by a call history that never registers a name `other` (no
`buildQueue other` call, and `other` is not the automatically registered
"default"), `getQueue other` fails with NotFound. -/
theorem getQueue_after_buildQueue (r : IssueRepository) (name : String) :
    (r.buildQueue name).2.getQueue name = .ok (r.buildQueue name).1 ∧
    (∀ (calls : List RepoCall) (other : String), other ≠ "default" →
      RepoCall.buildQueue other ∉ calls →
      (runCalls IssueRepository.init calls).getQueue other
        = .error .notFound) := by
  constructor
  · simp [IssueRepository.getQueue, IssueRepository.buildQueue, dlookup_dinsert]
  · intro calls other hne hmem
    have h0 : dlookup IssueRepository.init.queues other = none := by
      have hq : IssueRepository.init.queues
          = [("default", { name := "default", heldIssues := [] })] := rfl
      rw [hq]
      simp [dlookup, hne]
    have hmiss := runCalls_queues_miss calls IssueRepository.init other h0 hmem
    simp [IssueRepository.getQueue, hmiss]

theorem getQueue_after_buildQueue_witness :
    (IssueRepository.init.buildQueue "bugs").2.getQueue "bugs"
      = .ok { name := "bugs", heldIssues := [] } ∧
    (runCalls IssueRepository.init
        [RepoCall.buildQueue "triage", RepoCall.reportBug 1 "d"]).getQueue "bugs"
      = .error .notFound :=
  ⟨(getQueue_after_buildQueue IssueRepository.init "bugs").1,
    (getQueue_after_buildQueue IssueRepository.init "bugs").2
      [RepoCall.buildQueue "triage", RepoCall.reportBug 1 "d"] "bugs"
      (by decide) (by decide)⟩

/-- C8: A freshly constructed `IssueRepository` has exactly one queue,
registered under the name "default", its id counter at its initial value 0
(so the next allocated id is 1), and empty issue and task maps. -/
theorem init_repository_state :
    IssueRepository.init.queues
      = [("default", { name := "default", heldIssues := [] })] ∧
    IssueRepository.init.currentIssueNumber = 0 ∧
    IssueRepository.init.getIssueNumber.1 = 1 ∧
    IssueRepository.init.issues = [] ∧
    IssueRepository.init.tasks = [] :=
  ⟨rfl, rfl, rfl, rfl, rfl⟩

/-- C9: `buildQueue` (createQueue) always succeeds: for every name, including
a name already registered, it constructs a new empty queue, registers it
under that name replacing any previously registered queue of the same name,
and returns the newly constructed queue; no other repository state (issues,
tasks, counter) changes, and lookups of every other queue name are
unaffected. -/
theorem buildQueue_total_overwrite (r : IssueRepository) (name : String) :
    (r.buildQueue name).1 = { name := name, heldIssues := [] } ∧
    (∀ other : String, (r.buildQueue name).2.getQueue other
        = if other = name then .ok { name := name, heldIssues := [] }
          else r.getQueue other) ∧
    (r.buildQueue name).2.issues = r.issues ∧
    (r.buildQueue name).2.tasks = r.tasks ∧
    (r.buildQueue name).2.currentIssueNumber = r.currentIssueNumber := by
  refine ⟨rfl, ?_, rfl, rfl, rfl⟩
  intro other
  by_cases h : other = name
  · simp [IssueRepository.getQueue, IssueRepository.buildQueue,
      dlookup_dinsert, h]
  · simp [IssueRepository.getQueue, IssueRepository.buildQueue,
      dlookup_dinsert, h]

theorem buildQueue_overwrite_witness :
    (IssueRepository.init.buildQueue "default").2.getQueue "default"
      = .ok { name := "default", heldIssues := [] } := by
  have h := (buildQueue_total_overwrite IssueRepository.init "default").2.1
    "default"
  simpa using h

/-- C10: In every repository state reachable by any sequence of `buildIssue`,
`buildTask`, `queueIssue`, `reportBug` and `buildQueue` calls from a fresh
`IssueRepository`, the key sets of the issue map and the task map are
disjoint subsets of `{1, ..., currentIssueNumber}`, and every stored `Issue`
or `Task` carries an id equal to the map key under which it is stored. -/
theorem reachable_states_satisfy_repoInv (calls : List RepoCall) :
    repoInv (runCalls IssueRepository.init calls) :=
  runCalls_repoInv calls IssueRepository.init repoInv_init

theorem reachable_repoInv_witness :
    repoInv (runCalls IssueRepository.init
      [RepoCall.queueIssue 1 "disk full" "default",
        RepoCall.buildTask 2 "investigate",
        RepoCall.buildQueue "triage",
        RepoCall.queueIssue 3 "oops" "nonexistent",
        RepoCall.reportBug 4 "crash"]) :=
  reachable_states_satisfy_repoInv _

end TwistedIssues
